import Mathlib

/-!
Shallow embedding of `src/main_module.py` from blackroad-widget-factory:
the widget data model, per-type config schemas, `validate_config`,
`serialize_widget` / `deserialize_widget`, `generate_react_props` and
`export_layout`, together with theorems settling the specification claims.
-/

set_option maxRecDepth 4000

/-- Tags of the Python runtime types that appear in `_CONFIG_SCHEMAS` and
`_PROP_TYPES` (`str`, `int`, `float`, `bool`, `list`, `dict`). -/
inductive PyType where
  | tstr | tint | tfloat | tbool | tlist | tdict
deriving DecidableEq, Repr

/-- JSON-compatible Python values stored in a widget's `config` dict.
Floats are modelled as rationals (validation only inspects the runtime
type tag, never the numeric value). `null` is Python `None`. -/
inductive PyVal where
  | str (s : String)
  | int (i : Int)
  | float (q : Rat)
  | bool (b : Bool)
  | list (xs : List PyVal)
  | dict (kvs : List (String × PyVal))
  | null

/-- Python `isinstance(value, ty)`. `bool` is a subclass of `int` in
Python, so a `bool` value is an instance of both `bool` and `int`;
an `int` is not an instance of `float`. -/
def isinst : PyVal → PyType → Bool
  | .str _, .tstr => true
  | .int _, .tint => true
  | .float _, .tfloat => true
  | .bool _, .tbool => true
  | .bool _, .tint => true
  | .list _, .tlist => true
  | .dict _, .tdict => true
  | _, _ => false

/-- Python `type(value).__name__` for the values we model. -/
def pyTypeName : PyVal → String
  | .str _ => "str"
  | .int _ => "int"
  | .float _ => "float"
  | .bool _ => "bool"
  | .list _ => "list"
  | .dict _ => "dict"
  | .null => "NoneType"

/-- `expected_type.__name__` for a schema entry's single expected type. -/
def pyTypeTagName : PyType → String
  | .tstr => "str"
  | .tint => "int"
  | .tfloat => "float"
  | .tbool => "bool"
  | .tlist => "list"
  | .tdict => "dict"

/-- A schema entry's expected type: either a single Python type or a
tuple of alternatives (the source only uses the tuple `(int, float)`). -/
inductive TySpec where
  | one (t : PyType)
  | tup (ts : List PyType)
deriving DecidableEq, Repr

/-- `isinstance(value, expected_type)` where `expected_type` may be a
tuple (Python accepts the value if it is an instance of any member). -/
def typeOk (v : PyVal) : TySpec → Bool
  | .one t => isinst v t
  | .tup ts => ts.any (isinst v)

/-- Lookup in a Python dict embedded as an insertion-ordered
association list (first match; dict keys are unique). -/
def pyLookup {α : Type} : List (String × α) → String → Option α
  | [], _ => none
  | (k, v) :: rest, key => if k = key then some v else pyLookup rest key

/-- Python dict assignment `d[key] = v`: replaces the value in place if
the key is present, otherwise appends the new pair at the end. -/
def pySet {α : Type} : List (String × α) → String → α → List (String × α)
  | [], key, v => [(key, v)]
  | (k, w) :: rest, key, v =>
    if k = key then (k, v) :: rest else (k, w) :: pySet rest key v

/-- `Position` dataclass: grid placement of a widget. -/
structure Position where
  x : Int
  y : Int
  width : Int
  height : Int
deriving DecidableEq, Repr

/-- `Widget` dataclass. `config` embeds the Python dict as an
insertion-ordered association list; `db_id` is the storage handle. -/
structure Widget where
  widget_type : String
  config : List (String × PyVal)
  position : Position
  widget_id : String
  label : String
  visible : Bool
  created_at : String
  db_id : Option Int

/-- `WidgetLayout` dataclass. -/
structure WidgetLayout where
  name : String
  widgets : List Widget
  columns : Int
  row_height : Int
  layout_id : Option Int
  created_at : String

/-- The module-level `WIDGET_TYPES` set of supported widget types. -/
def WIDGET_TYPES : List String :=
  ["button", "input", "text", "image", "chart", "table",
   "card", "modal", "dropdown", "checkbox", "slider",
   "progress", "badge", "avatar", "tooltip", "tabs",
   "accordion", "navbar", "sidebar", "form"]

/-- `_CONFIG_SCHEMAS.get(widget_type, {})`: the per-type config schema,
empty for types without an entry. -/
def configSchemas : String → List (String × TySpec)
  | "button" => [("label", .one .tstr), ("variant", .one .tstr), ("disabled", .one .tbool)]
  | "input" => [("placeholder", .one .tstr), ("type", .one .tstr),
                ("required", .one .tbool), ("maxLength", .one .tint)]
  | "text" => [("content", .one .tstr), ("size", .one .tstr),
               ("weight", .one .tstr), ("color", .one .tstr)]
  | "image" => [("src", .one .tstr), ("alt", .one .tstr),
                ("width", .one .tint), ("height", .one .tint)]
  | "chart" => [("chartType", .one .tstr), ("data", .one .tlist),
                ("title", .one .tstr), ("showLegend", .one .tbool)]
  | "table" => [("columns", .one .tlist), ("rows", .one .tlist),
                ("sortable", .one .tbool), ("paginate", .one .tbool)]
  | "card" => [("title", .one .tstr), ("body", .one .tstr),
               ("footer", .one .tstr), ("elevation", .one .tint)]
  | "modal" => [("title", .one .tstr), ("content", .one .tstr), ("closable", .one .tbool)]
  | "dropdown" => [("options", .one .tlist), ("placeholder", .one .tstr),
                   ("multiple", .one .tbool)]
  | "checkbox" => [("label", .one .tstr), ("checked", .one .tbool),
                   ("indeterminate", .one .tbool)]
  | "slider" => [("min", .tup [.tint, .tfloat]), ("max", .tup [.tint, .tfloat]),
                 ("step", .tup [.tint, .tfloat]), ("value", .tup [.tint, .tfloat])]
  | "progress" => [("value", .tup [.tint, .tfloat]), ("max", .tup [.tint, .tfloat]),
                   ("label", .one .tstr), ("color", .one .tstr)]
  | "badge" => [("text", .one .tstr), ("color", .one .tstr), ("size", .one .tstr)]
  | "avatar" => [("src", .one .tstr), ("name", .one .tstr), ("size", .one .tstr)]
  | "tooltip" => [("content", .one .tstr), ("placement", .one .tstr)]
  | "tabs" => [("items", .one .tlist), ("activeIndex", .one .tint)]
  | _ => []

/-- Python `repr` of a tuple of classes, as it appears inside the
tuple-mismatch error message, e.g. `(<class 'int'>, <class 'float'>)`. -/
def tupleClassRepr (ts : List PyType) : String :=
  "(" ++ String.intercalate ", " (ts.map (fun t => "<class '" ++ pyTypeTagName t ++ "'>")) ++ ")"

/-- The type-mismatch error message built by `validate_config` for a
config field. -/
def typeErrMsg (key : String) (spec : TySpec) (v : PyVal) : String :=
  match spec with
  | .one t => "'" ++ key ++ "' must be " ++ pyTypeTagName t ++ ", got " ++ pyTypeName v
  | .tup ts => "'" ++ key ++ "' must be one of " ++ tupleClassRepr ts ++ ", got " ++ pyTypeName v

/-- The schema loop of `validate_config`: for each schema entry whose key
is present in the config, check the value's runtime type. -/
def checkSchema : List (String × TySpec) → List (String × PyVal) → List String
  | [], _ => []
  | (key, spec) :: rest, config =>
    (match pyLookup config key with
     | none => []
     | some v => if typeOk v spec then [] else [typeErrMsg key spec v])
    ++ checkSchema rest config

/-- `validate_config(widget)`: list of validation error strings, in the
order the source appends them. -/
def validate_config (w : Widget) : List String :=
  if w.widget_type ∈ WIDGET_TYPES then
    checkSchema (configSchemas w.widget_type) w.config
    ++ (if 0 ≤ w.position.x ∧ w.position.x ≤ 12 then []
        else ["Position x=" ++ toString w.position.x ++ " out of range [0,12]"])
    ++ (if 1 ≤ w.position.width ∧ w.position.width ≤ 12 then []
        else ["Width=" ++ toString w.position.width ++ " out of range [1,12]"])
    ++ (if w.position.x + w.position.width > 12 then
          ["Widget overflows grid: x(" ++ toString w.position.x ++ ") + width("
           ++ toString w.position.width ++ ") > 12"]
        else [])
    ++ (if w.position.height < 1 then
          ["Height must be >= 1, got " ++ toString w.position.height]
        else [])
    ++ (if w.widget_id = "" then ["widget_id is required"] else [])
  else ["Unknown widget type: " ++ w.widget_type]

/-- The claim C1's conformance hypothesis: every config field present in
the type's schema has a value of the expected runtime kind. -/
def configConforms (w : Widget) : Prop :=
  ∀ kv ∈ configSchemas w.widget_type,
    ((pyLookup w.config kv.1).all fun v => typeOk v kv.2) = true

instance (w : Widget) : Decidable (configConforms w) := by
  unfold configConforms; infer_instance

/-! ## Serialization (`serialize_widget` / `deserialize_widget`) -/

/-- The nested `position` sub-dict of a serialized widget, with each key
optional (deserialization reads each coordinate with `.get` and a
default). -/
structure PosData where
  x : Option Int
  y : Option Int
  width : Option Int
  height : Option Int

/-- The plain dict produced by `serialize_widget` / consumed by
`deserialize_widget`. Every key the functions touch is modelled as an
`Option` field (`none` = key absent); `serialize_widget` emits all of
them, and the dict has no `db_id` key at all. -/
structure WidgetData where
  widget_id : Option String
  widget_type : Option String
  label : Option String
  config : Option (List (String × PyVal))
  position : Option PosData
  visible : Option Bool
  created_at : Option String

/-- `serialize_widget(widget)`: emits the seven keys
`widget_id, widget_type, label, config, position, visible, created_at`
(and nothing else — in particular no `db_id`). -/
def serialize_widget (w : Widget) : WidgetData :=
  { widget_id := some w.widget_id,
    widget_type := some w.widget_type,
    label := some w.label,
    config := some w.config,
    position := some { x := some w.position.x, y := some w.position.y,
                       width := some w.position.width, height := some w.position.height },
    visible := some w.visible,
    created_at := some w.created_at }

/-- `deserialize_widget(data)`. `data["widget_type"]` raises `KeyError`
when the key is absent (modelled as `none`); every other key falls back
to a default. The fresh `uuid.uuid4()` and `datetime.utcnow()` values
the source generates are passed in as `freshId` and `nowTs`. The
resulting widget's `db_id` is the dataclass default `None`. -/
def deserialize_widget (d : WidgetData) (freshId nowTs : String) : Option Widget :=
  match d.widget_type with
  | none => none
  | some ty =>
    let pd := d.position.getD { x := none, y := none, width := none, height := none }
    some { widget_type := ty,
           config := d.config.getD [],
           position := { x := pd.x.getD 0, y := pd.y.getD 0,
                         width := pd.width.getD 4, height := pd.height.getD 2 },
           widget_id := d.widget_id.getD freshId,
           label := d.label.getD "",
           visible := d.visible.getD true,
           created_at := d.created_at.getD nowTs,
           db_id := none }

/-! ## React prop generation (`generate_react_props`) -/

/-- The `type_map` lookup inside `generate_react_props`, with the
`.get(..., "Widget")` fallback. -/
def reactComponentName : String → String
  | "button" => "Button"
  | "input" => "Input"
  | "text" => "Typography"
  | "image" => "Image"
  | "chart" => "Chart"
  | "table" => "DataTable"
  | "card" => "Card"
  | "modal" => "Modal"
  | "dropdown" => "Select"
  | "checkbox" => "Checkbox"
  | "slider" => "Slider"
  | "progress" => "ProgressBar"
  | "badge" => "Badge"
  | "avatar" => "Avatar"
  | "tooltip" => "Tooltip"
  | "tabs" => "Tabs"
  | _ => "Widget"

/-- `_PROP_TYPES` lookup (every type tag we model has an entry, so the
source's `"PropTypes.any"` fallback is never taken). -/
def propTypeOf : PyType → String
  | .tstr => "PropTypes.string"
  | .tint => "PropTypes.number"
  | .tfloat => "PropTypes.number"
  | .tbool => "PropTypes.bool"
  | .tlist => "PropTypes.array"
  | .tdict => "PropTypes.object"

/-- PropTypes descriptor for a schema entry; tuple alternatives are
joined with `" || "`. -/
def propTypeStr : TySpec → String
  | .one t => propTypeOf t
  | .tup ts => String.intercalate " || " (ts.map propTypeOf)

/-- Python truth test `value is None`. -/
def isNull : PyVal → Bool
  | .null => true
  | _ => false

/-- The record returned by `generate_react_props`. -/
structure ReactProps where
  componentName : String
  props : List (String × PyVal)
  propTypes : List (String × String)
  defaultProps : List (String × PyVal)
  position : Position

/-- One iteration of the `defaultProps` loop: skip `None` values,
otherwise assign the config value into the defaults dict. -/
def defaultsStep (d : List (String × PyVal)) (kv : String × PyVal) : List (String × PyVal) :=
  if isNull kv.2 then d else pySet d kv.1 kv.2

/-- `generate_react_props(widget)`. `props` is
`{**config, "visible": widget.visible, "id": widget.widget_id}` plus, if
`label` is non-empty (truthy), an `"aria-label"` entry; `propTypes`
starts from the two injected keys and adds one entry per schema field;
`defaultProps` starts from `{"visible": True}` and adds every config
entry whose value is not `None`. -/
def generate_react_props (w : Widget) : ReactProps :=
  let props0 := pySet (pySet w.config "visible" (.bool w.visible)) "id" (.str w.widget_id)
  let props := if w.label ≠ "" then pySet props0 "aria-label" (.str w.label) else props0
  let propTypes := (configSchemas w.widget_type).foldl
      (fun d kv => pySet d kv.1 (propTypeStr kv.2))
      [("id", "PropTypes.string"), ("visible", "PropTypes.bool")]
  let defaults := w.config.foldl defaultsStep [("visible", .bool true)]
  { componentName := reactComponentName w.widget_type,
    props := props,
    propTypes := propTypes,
    defaultProps := defaults,
    position := w.position }

/-! ## Layout export (`export_layout`) -/

/-- Python `"sep".join(parts)`. -/
def pyJoin (sep : String) : List String → String
  | [] => ""
  | [x] => x
  | x :: y :: xs => x ++ (sep ++ pyJoin sep (y :: xs))

/-- `n` spaces of indentation. -/
def pad (n : Nat) : String := String.mk (List.replicate n ' ')

/-- JSON string escaping used by `json.dumps`. -/
def jsonEscapeChar (c : Char) : String :=
  if c = '"' then "\\\""
  else if c = '\\' then "\\\\"
  else if c = '\n' then "\\n"
  else if c = '\t' then "\\t"
  else if c = '\r' then "\\r"
  else String.singleton c

/-- A JSON string literal. -/
def jsonStrLit (s : String) : String :=
  "\"" ++ String.join (s.data.map jsonEscapeChar) ++ "\""

mutual
/-- `json.dumps(value, indent=2)` at indentation level `ind`. -/
def jsonDumpsVal (ind : Nat) : PyVal → String
  | .str s => jsonStrLit s
  | .int i => toString i
  | .float q => toString q
  | .bool b => if b then "true" else "false"
  | .null => "null"
  | .list [] => "[]"
  | .list (x :: xs) =>
      "[\n" ++ String.intercalate ",\n" (jsonDumpsItems (ind + 2) (x :: xs))
      ++ "\n" ++ pad ind ++ "]"
  | .dict [] => "\x7b\x7d"
  | .dict (kv :: kvs) =>
      "\x7b\n" ++ String.intercalate ",\n" (jsonDumpsPairs (ind + 2) (kv :: kvs))
      ++ "\n" ++ pad ind ++ "\x7d"

/-- Array items of `json.dumps` at indentation `ind`. -/
def jsonDumpsItems (ind : Nat) : List PyVal → List String
  | [] => []
  | x :: xs => (pad ind ++ jsonDumpsVal ind x) :: jsonDumpsItems ind xs

/-- Object members of `json.dumps` at indentation `ind`. -/
def jsonDumpsPairs (ind : Nat) : List (String × PyVal) → List String
  | [] => []
  | (k, v) :: kvs => (pad ind ++ jsonStrLit k ++ ": " ++ jsonDumpsVal ind v)
                     :: jsonDumpsPairs ind kvs
end

/-- The dict `serialize_widget(w)` as a JSON-ready value (used by the
`json` export branch). -/
def serializedPyVal (w : Widget) : PyVal :=
  .dict [("widget_id", .str w.widget_id),
         ("widget_type", .str w.widget_type),
         ("label", .str w.label),
         ("config", .dict w.config),
         ("position", .dict [("x", .int w.position.x), ("y", .int w.position.y),
                             ("width", .int w.position.width),
                             ("height", .int w.position.height)]),
         ("visible", .bool w.visible),
         ("created_at", .str w.created_at)]

/-- The dict built by the `json` branch of `export_layout`. -/
def layoutPyVal (l : WidgetLayout) : PyVal :=
  .dict [("name", .str l.name),
         ("columns", .int l.columns),
         ("row_height", .int l.row_height),
         ("widgets", .list (l.widgets.map serializedPyVal))]

/-- The five lines of one widget's rule block in the `css` export. -/
def cssWidgetLines (w : Widget) : List String :=
  [".widget-" ++ w.widget_id.take 8 ++ " \x7b",
   "  grid-column: " ++ toString (w.position.x + 1) ++ " / span "
     ++ toString w.position.width ++ ";",
   "  grid-row: " ++ toString (w.position.y + 1) ++ " / span "
     ++ toString w.position.height ++ ";",
   "\x7d",
   ""]

/-- The `lines` list built by the `css` branch of `export_layout`. -/
def cssLines (l : WidgetLayout) : List String :=
  ["/* Layout: " ++ l.name ++ " */",
   ".layout-" ++ (l.name.replace " " "-").toLower ++ " \x7b",
   "  display: grid;",
   "  grid-template-columns: repeat(" ++ toString l.columns ++ ", 1fr);",
   "  row-gap: " ++ toString l.row_height ++ "px;",
   "\x7d",
   ""]
  ++ l.widgets.flatMap cssWidgetLines

/-- The `rows` list built by the `html` branch of `export_layout`. -/
def htmlLines (l : WidgetLayout) : List String :=
  ["<!-- Layout: " ++ l.name ++ " -->",
   "<div class=\"grid-layout\" data-columns=\"" ++ toString l.columns ++ "\">"]
  ++ l.widgets.map (fun w =>
       "  <div class=\"widget widget-" ++ w.widget_type ++ "\" data-id=\""
       ++ w.widget_id ++ "\" style=\"grid-column: " ++ toString (w.position.x + 1)
       ++ " / span " ++ toString w.position.width ++ "; grid-row: "
       ++ toString (w.position.y + 1) ++ " / span " ++ toString w.position.height
       ++ ";\"><!-- " ++ (generate_react_props w).componentName ++ " --></div>")
  ++ ["</div>"]

/-- `export_layout(layout, fmt)`: renders `json`, `css` or `html`, and
raises (`.error`) on any other format token, with the `ValueError`
message naming the token. -/
def export_layout (l : WidgetLayout) (fmt : String) : Except String String :=
  if fmt = "json" then .ok (jsonDumpsVal 0 (layoutPyVal l))
  else if fmt = "css" then .ok (pyJoin "\n" (cssLines l))
  else if fmt = "html" then .ok (pyJoin "\n" (htmlLines l))
  else .error ("Unsupported export format: " ++ fmt ++ ". Use json, css, or html.")

/-! ## Spec-side description of the CSS export (for the refinement claim
about the `css` format): these two definitions follow the specification's
words — a top-level grid block whose selector derives from the layout
name, and one placement block per widget keyed by the first 8 characters
of its identifier — and are compared against `export_layout`. -/

/-- Concatenation of a list of strings (no separator). -/
def concatStrings : List String → String
  | [] => ""
  | s :: rest => s ++ concatStrings rest

/-- Spec: the top-level block — selector `layout-` + layout name with
spaces replaced by hyphens and lower-cased, declaring `display: grid`,
`grid-template-columns: repeat(columns, 1fr)` and `row-gap: row_height
px`. -/
def cssLayoutBlockSpec (l : WidgetLayout) : String :=
  ".layout-" ++ (l.name.replace " " "-").toLower ++ " \x7b" ++ "\n"
  ++ "  display: grid;" ++ "\n"
  ++ "  grid-template-columns: repeat(" ++ toString l.columns ++ ", 1fr);" ++ "\n"
  ++ "  row-gap: " ++ toString l.row_height ++ "px;" ++ "\n"
  ++ "\x7d" ++ "\n"

/-- Spec: one block per widget — selector from the first 8 characters of
the widget's identifier, declaring `grid-column: x+1 / span width` and
`grid-row: y+1 / span height`. -/
def cssWidgetBlockSpec (w : Widget) : String :=
  ".widget-" ++ w.widget_id.take 8 ++ " \x7b" ++ "\n"
  ++ "  grid-column: " ++ toString (w.position.x + 1) ++ " / span "
    ++ toString w.position.width ++ ";" ++ "\n"
  ++ "  grid-row: " ++ toString (w.position.y + 1) ++ " / span "
    ++ toString w.position.height ++ ";" ++ "\n"
  ++ "\x7d" ++ "\n"

/-! ## Concrete inputs used by counterexamples and witnesses -/

/-- The test fixture `button_widget` (a fully valid button widget). -/
def wButton : Widget :=
  { widget_type := "button",
    config := [("label", .str "Submit"), ("variant", .str "primary"), ("disabled", .bool false)],
    position := { x := 0, y := 0, width := 3, height := 1 },
    widget_id := "11111111-2222", label := "Submit", visible := true,
    created_at := "2024-01-01T00:00:00", db_id := none }

/-- A valid button widget whose `widget_id` is the empty string. -/
def wNoId : Widget :=
  { widget_type := "button", config := [],
    position := { x := 0, y := 0, width := 4, height := 2 },
    widget_id := "", label := "", visible := true,
    created_at := "2024-01-01T00:00:00", db_id := none }

/-- The fixture widget after persistence (storage handle assigned). -/
def wPersisted : Widget := { wButton with db_id := some 1 }

/-- A widget whose config contains a non-null `"visible"` entry. -/
def wShadow : Widget :=
  { widget_type := "button", config := [("visible", .bool false)],
    position := { x := 0, y := 0, width := 4, height := 2 },
    widget_id := "33333333-4444", label := "", visible := true,
    created_at := "2024-01-01T00:00:00", db_id := none }

/-- A button widget whose position overflows the 12-column grid. -/
def wOverflow : Widget :=
  { widget_type := "button", config := [],
    position := { x := 10, y := 0, width := 5, height := 1 },
    widget_id := "55555555-6666", label := "", visible := true,
    created_at := "2024-01-01T00:00:00", db_id := none }

/-- A widget whose type is outside the enumerated set. -/
def wUnknownType : Widget :=
  { widget_type := "nonexistent", config := [],
    position := { x := 0, y := 0, width := 4, height := 2 },
    widget_id := "77777777-8888", label := "", visible := true,
    created_at := "2024-01-01T00:00:00", db_id := none }

/-- A layout with an empty widget list. -/
def lEmpty : WidgetLayout :=
  { name := "dashboard", widgets := [], columns := 12, row_height := 60,
    layout_id := none, created_at := "2024-01-01T00:00:00" }

/-- Serialized-widget input with every key absent. -/
def dEmptyData : WidgetData :=
  { widget_id := none, widget_type := none, label := none, config := none,
    position := none, visible := none, created_at := none }

/-- Serialized-widget input containing only `widget_type`. -/
def dOnlyType : WidgetData := { dEmptyData with widget_type := some "button" }

/-! ## Helper lemmas -/

theorem pyLookup_pySet_self {α : Type} (d : List (String × α)) (k : String) (v : α) :
    pyLookup (pySet d k v) k = some v := by
  induction d with
  | nil => simp [pySet, pyLookup]
  | cons kv rest ih =>
    obtain ⟨k0, v0⟩ := kv
    by_cases h : k0 = k
    · simp [pySet, pyLookup, h]
    · simp [pySet, pyLookup, h, ih]

theorem pyLookup_pySet_ne {α : Type} (d : List (String × α)) (k k' : String) (v : α)
    (h : k ≠ k') : pyLookup (pySet d k v) k' = pyLookup d k' := by
  induction d with
  | nil => simp [pySet, pyLookup, h]
  | cons kv rest ih =>
    obtain ⟨k0, v0⟩ := kv
    by_cases h0 : k0 = k
    · subst h0; simp [pySet, pyLookup, h]
    · simp [pySet, pyLookup, h0, ih]

theorem pyLookup_pySet_ne_none {α : Type} (d : List (String × α)) (k k' : String) (v : α)
    (h : pyLookup (pySet d k v) k' ≠ none) : k' = k ∨ pyLookup d k' ≠ none := by
  by_cases hk : k = k'
  · exact Or.inl hk.symm
  · rw [pyLookup_pySet_ne d k k' v hk] at h
    exact Or.inr h

theorem checkSchema_eq_nil (schema : List (String × TySpec)) (config : List (String × PyVal))
    (h : ∀ kv ∈ schema, ((pyLookup config kv.1).all fun v => typeOk v kv.2) = true) :
    checkSchema schema config = [] := by
  induction schema with
  | nil => rfl
  | cons kv rest ih =>
    obtain ⟨key, spec⟩ := kv
    have h1 := h (key, spec) (List.mem_cons_self _ _)
    have h2 := ih fun kv hm => h kv (List.mem_cons_of_mem _ hm)
    simp only [checkSchema, h2, List.append_nil]
    cases hc : pyLookup config key with
    | none => rfl
    | some v =>
      rw [hc] at h1
      simp only [Option.all_some] at h1
      simp [h1]

/-! ## Claim C1 -/

/-- C1 (counterexample to the claim as stated): `wNoId` has a valid
type, an in-bounds position and a schema-conforming config, yet
`validate_config` returns a non-empty list (the empty `widget_id`
error). -/
theorem C1_counterexample :
    wNoId.widget_type ∈ WIDGET_TYPES ∧
    (0 ≤ wNoId.position.x ∧ wNoId.position.x ≤ 12) ∧
    (1 ≤ wNoId.position.width ∧ wNoId.position.width ≤ 12) ∧
    wNoId.position.x + wNoId.position.width ≤ 12 ∧
    1 ≤ wNoId.position.height ∧
    configConforms wNoId ∧
    validate_config wNoId ≠ [] := by
  refine ⟨by decide, by decide, by decide, by decide, by decide, by decide, ?_⟩
  decide

/-- C1 (amended): a widget with a valid type, an in-bounds position, a
schema-conforming config AND a non-empty `widget_id` validates with no
errors. -/
theorem C1_validate_config_ok (w : Widget)
    (hty : w.widget_type ∈ WIDGET_TYPES)
    (hx : 0 ≤ w.position.x ∧ w.position.x ≤ 12)
    (hw : 1 ≤ w.position.width ∧ w.position.width ≤ 12)
    (hxw : w.position.x + w.position.width ≤ 12)
    (hh : 1 ≤ w.position.height)
    (hconf : configConforms w)
    (hid : w.widget_id ≠ "") :
    validate_config w = [] := by
  unfold validate_config
  rw [if_pos hty, checkSchema_eq_nil _ _ hconf,
      if_pos hx, if_pos hw, if_neg (by omega), if_neg (by omega), if_neg hid]
  rfl

/-- C1 witness: the amended theorem applied to the valid test-fixture
button widget. -/
theorem C1_witness : validate_config wButton = [] :=
  C1_validate_config_ok wButton (by decide) (by decide) (by decide)
    (by decide) (by decide) (by decide) (by decide)

/-! ## Claim C3 -/

/-- C3: for a widget whose type is outside `WIDGET_TYPES`,
`validate_config` returns exactly the single unknown-type error — no
field-kind, position or `widget_id` checks contribute. -/
theorem C3_validate_config_unknown_type (w : Widget)
    (h : w.widget_type ∉ WIDGET_TYPES) :
    validate_config w = ["Unknown widget type: " ++ w.widget_type] := by
  unfold validate_config
  rw [if_neg h]

/-- C3 witness: a widget of type `"nonexistent"` (with an out-of-range
position that would otherwise produce more errors). -/
theorem C3_witness :
    validate_config wUnknownType = ["Unknown widget type: " ++ wUnknownType.widget_type] :=
  C3_validate_config_unknown_type wUnknownType (by decide)

/-! ## Claim C7 -/

/-- C7: for a widget with a valid type whose position satisfies
`x + width > 12`, the validation errors include a message containing
`"overflows"`. -/
theorem C7_validate_config_overflow (w : Widget)
    (hty : w.widget_type ∈ WIDGET_TYPES)
    (hover : w.position.x + w.position.width > 12) :
    ∃ a b, a ++ ("overflows" ++ b) ∈ validate_config w := by
  refine ⟨"Widget ",
    " grid: x(" ++ (toString w.position.x ++ (") + width("
      ++ (toString w.position.width ++ ") > 12"))), ?_⟩
  unfold validate_config
  rw [if_pos hty, if_pos hover]
  have hmsg : ("Widget " : String) ++ ("overflows" ++ (" grid: x("
        ++ (toString w.position.x ++ (") + width(" ++ (toString w.position.width ++ ") > 12")))))
      = "Widget overflows grid: x(" ++ toString w.position.x ++ ") + width("
        ++ toString w.position.width ++ ") > 12" := by
    rw [← String.append_assoc, ← String.append_assoc]
    have hlit : (("Widget " ++ "overflows") ++ " grid: x(" : String)
        = "Widget overflows grid: x(" := rfl
    rw [hlit]
    simp [String.append_assoc]
  rw [hmsg]
  simp [List.mem_append]

/-- C7 witness: the overflow theorem applied to a button widget at
`x = 10, width = 5`. -/
theorem C7_witness : ∃ a b, a ++ ("overflows" ++ b) ∈ validate_config wOverflow :=
  C7_validate_config_overflow wOverflow (by decide) (by decide)

/-! ## Claim C2 -/

/-- C2 (counterexample to the claim as stated): for a persisted widget
(`db_id = some 1`), deserializing its serialization does not return the
widget unchanged — the storage handle is not serialized and comes back
as `none`. -/
theorem C2_counterexample :
    deserialize_widget (serialize_widget wPersisted) "fresh-id" "now" ≠ some wPersisted := by
  intro h
  have hdb := congrArg (Option.map Widget.db_id) h
  simp [serialize_widget, deserialize_widget, wPersisted] at hdb

/-- C2 (amended): deserializing a serialized widget restores every field
— including the nested position — except the storage handle `db_id`,
which is reset to `none`. -/
theorem C2_roundtrip (w : Widget) (freshId nowTs : String) :
    deserialize_widget (serialize_widget w) freshId nowTs = some { w with db_id := none } :=
  rfl

/-! ## Claim C9 -/

/-- C9: `deserialize_widget` fails on any input lacking `widget_type`,
and succeeds on an input containing only `widget_type`, applying all
documented defaults (`label = ""`, `config = {}`,
`position = (0,0,4,2)`, `visible = true`, fresh `widget_id`, current
timestamp, `db_id = none`). -/
theorem C9_deserialize_requires_type :
    (∀ (d : WidgetData) (freshId nowTs : String), d.widget_type = none →
      deserialize_widget d freshId nowTs = none) ∧
    (∀ (ty freshId nowTs : String),
      deserialize_widget { dEmptyData with widget_type := some ty } freshId nowTs
        = some { widget_type := ty, config := [],
                 position := { x := 0, y := 0, width := 4, height := 2 },
                 widget_id := freshId, label := "", visible := true,
                 created_at := nowTs, db_id := none }) := by
  constructor
  · intro d freshId nowTs h
    unfold deserialize_widget
    rw [h]
  · intro ty freshId nowTs
    rfl

/-- C9 witness: the all-absent input fails; the `widget_type`-only input
succeeds with the defaults. -/
theorem C9_witness :
    deserialize_widget dEmptyData "fresh-id" "now" = none ∧
    deserialize_widget dOnlyType "fresh-id" "now"
      = some { widget_type := "button", config := [],
               position := { x := 0, y := 0, width := 4, height := 2 },
               widget_id := "fresh-id", label := "", visible := true,
               created_at := "now", db_id := none } :=
  ⟨C9_deserialize_requires_type.1 dEmptyData "fresh-id" "now" rfl,
   C9_deserialize_requires_type.2 "button" "fresh-id" "now"⟩

/-! ## Claim C10 -/

/-- C10: `serialize_widget` never emits the storage handle — its output
is independent of `db_id` (the serialized dict has no such key) — and
every widget produced by `deserialize_widget` has `db_id = none`. -/
theorem C10_db_id_not_roundtripped :
    (∀ w : Widget, serialize_widget w = serialize_widget { w with db_id := none }) ∧
    (∀ (d : WidgetData) (freshId nowTs : String) (w : Widget),
      deserialize_widget d freshId nowTs = some w → w.db_id = none) := by
  constructor
  · intro w
    rfl
  · intro d freshId nowTs w h
    unfold deserialize_widget at h
    cases hty : d.widget_type with
    | none => rw [hty] at h; exact absurd h (by simp)
    | some ty =>
      rw [hty] at h
      have := Option.some.inj h
      rw [← this]

/-- C10 witness: applying the theorem to the persisted fixture widget and
to a concrete successful deserialization. -/
theorem C10_witness :
    serialize_widget wPersisted = serialize_widget { wPersisted with db_id := none } ∧
    Widget.db_id { widget_type := "button", config := [],
                   position := { x := 0, y := 0, width := 4, height := 2 },
                   widget_id := "fresh-id", label := "", visible := true,
                   created_at := "now", db_id := none } = none :=
  ⟨C10_db_id_not_roundtripped.1 wPersisted,
   C10_db_id_not_roundtripped.2 dOnlyType "fresh-id" "now" _ rfl⟩

/-! ## defaultProps fold lemmas -/

theorem generate_react_props_defaultProps_def (w : Widget) :
    (generate_react_props w).defaultProps
      = w.config.foldl defaultsStep [("visible", .bool true)] := rfl

theorem lookup_foldl_defaults_of_null :
    ∀ (config : List (String × PyVal)) (acc : List (String × PyVal)) (k : String),
      (∀ v, (k, v) ∈ config → isNull v = true) →
      pyLookup (config.foldl defaultsStep acc) k = pyLookup acc k := by
  intro config
  induction config with
  | nil => intro acc k _; rfl
  | cons kv rest ih =>
    intro acc k h
    obtain ⟨k0, v0⟩ := kv
    simp only [List.foldl_cons]
    by_cases hn : isNull v0 = true
    · rw [show defaultsStep acc (k0, v0) = acc from by simp [defaultsStep, hn]]
      exact ih acc k fun v hv => h v (List.mem_cons_of_mem _ hv)
    · have hk : k0 ≠ k := by
        intro e
        subst e
        exact hn (h v0 (List.mem_cons_self _ _))
      rw [show defaultsStep acc (k0, v0) = pySet acc k0 v0 from by simp [defaultsStep, hn]]
      rw [ih _ k fun v hv => h v (List.mem_cons_of_mem _ hv)]
      exact pyLookup_pySet_ne acc k0 k v0 hk

theorem lookup_foldl_defaults_mem :
    ∀ (config : List (String × PyVal)) (acc : List (String × PyVal)) (k : String) (v : PyVal),
      (config.map Prod.fst).Nodup → (k, v) ∈ config → isNull v = false →
      pyLookup (config.foldl defaultsStep acc) k = some v := by
  intro config
  induction config with
  | nil => intro acc k v _ hm _; cases hm
  | cons kv rest ih =>
    intro acc k v hnd hm hv
    obtain ⟨k0, v0⟩ := kv
    simp only [List.map_cons, List.nodup_cons] at hnd
    obtain ⟨hk0nin, hndr⟩ := hnd
    simp only [List.foldl_cons]
    rcases List.mem_cons.mp hm with heq | hmr
    · cases heq
      rw [show defaultsStep acc (k, v) = pySet acc k v from by simp [defaultsStep, hv]]
      rw [lookup_foldl_defaults_of_null rest _ k ?_]
      · exact pyLookup_pySet_self acc k v
      · intro v' hv'
        exact absurd (List.mem_map_of_mem Prod.fst hv') hk0nin
    · exact ih _ k v hndr hmr hv

theorem lookup_foldl_defaults_none :
    ∀ (config : List (String × PyVal)) (acc : List (String × PyVal)) (k : String),
      pyLookup (config.foldl defaultsStep acc) k ≠ none →
      pyLookup acc k ≠ none ∨ ∃ v, (k, v) ∈ config ∧ isNull v = false := by
  intro config
  induction config with
  | nil => intro acc k h; exact Or.inl h
  | cons kv rest ih =>
    intro acc k h
    obtain ⟨k0, v0⟩ := kv
    simp only [List.foldl_cons] at h
    by_cases hn : isNull v0 = true
    · rw [show defaultsStep acc (k0, v0) = acc from by simp [defaultsStep, hn]] at h
      rcases ih acc k h with hl | ⟨v, hm, hv⟩
      · exact Or.inl hl
      · exact Or.inr ⟨v, List.mem_cons_of_mem _ hm, hv⟩
    · rw [show defaultsStep acc (k0, v0) = pySet acc k0 v0 from by simp [defaultsStep, hn]] at h
      rcases ih _ k h with hl | ⟨v, hm, hv⟩
      · rcases pyLookup_pySet_ne_none acc k0 k v0 hl with heq | hacc
        · subst heq
          exact Or.inr ⟨v0, List.mem_cons_self _ _, by simpa using hn⟩
        · exact Or.inl hacc
      · exact Or.inr ⟨v, List.mem_cons_of_mem _ hm, hv⟩

/-! ## Claim C4 -/

/-- C4 (counterexample to the claim as stated): for a widget whose
config contains `"visible": False`, `defaultProps` maps `"visible"` to
`False`, not to `True` — the config loop overwrites the injected
`visible: True`. -/
theorem C4_counterexample :
    pyLookup (generate_react_props wShadow).defaultProps "visible" ≠ some (.bool true) := by
  have h : pyLookup (generate_react_props wShadow).defaultProps "visible"
      = some (.bool false) := rfl
  rw [h]
  simp

/-- C4 (amended): `defaultProps` maps every config field with a non-null
value to that value; it maps `"visible"` to `true` whenever the config
itself has no non-null `"visible"` entry (otherwise the config entry
wins); and it contains nothing else. -/
theorem C4_defaultProps (w : Widget) (hnd : (w.config.map Prod.fst).Nodup) :
    (∀ k v, (k, v) ∈ w.config → isNull v = false →
       pyLookup (generate_react_props w).defaultProps k = some v) ∧
    ((∀ v, ("visible", v) ∈ w.config → isNull v = true) →
       pyLookup (generate_react_props w).defaultProps "visible" = some (.bool true)) ∧
    (∀ k, pyLookup (generate_react_props w).defaultProps k ≠ none →
       k = "visible" ∨ ∃ v, (k, v) ∈ w.config ∧ isNull v = false) := by
  refine ⟨?_, ?_, ?_⟩
  · intro k v hm hv
    rw [generate_react_props_defaultProps_def]
    exact lookup_foldl_defaults_mem w.config _ k v hnd hm hv
  · intro hvis
    rw [generate_react_props_defaultProps_def,
        lookup_foldl_defaults_of_null w.config _ "visible" hvis]
    rfl
  · intro k h
    rw [generate_react_props_defaultProps_def] at h
    rcases lookup_foldl_defaults_none w.config _ k h with hacc | hex
    · by_cases hk : ("visible" : String) = k
      · exact Or.inl hk.symm
      · exact absurd (by simp [pyLookup, hk]) hacc
    · exact Or.inr hex

/-- C4 witness: the amended theorem applied to the fixture button widget
(no `"visible"` key in its config). -/
theorem C4_witness :
    pyLookup (generate_react_props wButton).defaultProps "label" = some (.str "Submit") ∧
    pyLookup (generate_react_props wButton).defaultProps "visible" = some (.bool true) :=
  ⟨(C4_defaultProps wButton (by decide)).1 "label" (.str "Submit")
      (by simp [wButton]) rfl,
   (C4_defaultProps wButton (by decide)).2.1
      (by intro v hv; simp [wButton] at hv)⟩

/-! ## Claim C5 -/

/-- C5: `props` maps `"id"` to the widget's identifier and `"visible"`
to the widget's visibility, for every widget — config keys named `"id"`
or `"visible"` are shadowed because the injection happens after the
merge. -/
theorem C5_props_id_visible (w : Widget) :
    pyLookup (generate_react_props w).props "id" = some (.str w.widget_id) ∧
    pyLookup (generate_react_props w).props "visible" = some (.bool w.visible) := by
  have hp : (generate_react_props w).props
      = if w.label ≠ "" then
          pySet (pySet (pySet w.config "visible" (.bool w.visible)) "id" (.str w.widget_id))
            "aria-label" (.str w.label)
        else pySet (pySet w.config "visible" (.bool w.visible)) "id" (.str w.widget_id) := rfl
  constructor
  · rw [hp]
    by_cases hl : w.label ≠ ""
    · rw [if_pos hl, pyLookup_pySet_ne _ _ _ _ (by decide), pyLookup_pySet_self]
    · rw [if_neg hl, pyLookup_pySet_self]
  · rw [hp]
    by_cases hl : w.label ≠ ""
    · rw [if_pos hl, pyLookup_pySet_ne _ _ _ _ (by decide),
          pyLookup_pySet_ne _ _ _ _ (by decide), pyLookup_pySet_self]
    · rw [if_neg hl, pyLookup_pySet_ne _ _ _ _ (by decide), pyLookup_pySet_self]

/-! ## Claim C6 -/

/-- C6: `export_layout` with any format token other than `json`, `css`,
`html` fails with an error whose message names the offending token, and
each of the three supported formats succeeds (returns a string) on a
layout with an empty widget list. -/
theorem C6_export_layout_formats :
    (∀ (l : WidgetLayout) (fmt : String), fmt ≠ "json" → fmt ≠ "css" → fmt ≠ "html" →
      export_layout l fmt
        = .error ("Unsupported export format: " ++ fmt ++ ". Use json, css, or html.")) ∧
    (∀ l : WidgetLayout, l.widgets = [] →
      (∃ s, export_layout l "json" = .ok s) ∧ (∃ s, export_layout l "css" = .ok s) ∧
      (∃ s, export_layout l "html" = .ok s)) := by
  constructor
  · intro l fmt h1 h2 h3
    unfold export_layout
    rw [if_neg h1, if_neg h2, if_neg h3]
  · intro l _
    exact ⟨⟨_, rfl⟩, ⟨_, rfl⟩, ⟨_, rfl⟩⟩

/-- C6 witness: the theorem applied to the empty layout with the token
`"xml"` and with each supported format. -/
theorem C6_witness :
    export_layout lEmpty "xml"
      = .error ("Unsupported export format: " ++ "xml" ++ ". Use json, css, or html.") ∧
    (∃ s, export_layout lEmpty "json" = .ok s) ∧ (∃ s, export_layout lEmpty "css" = .ok s) ∧
    (∃ s, export_layout lEmpty "html" = .ok s) :=
  ⟨C6_export_layout_formats.1 lEmpty "xml" (by decide) (by decide) (by decide),
   C6_export_layout_formats.2 lEmpty rfl⟩

/-! ## Claim C8 -/

theorem pyJoin_cons (sep x y : String) (xs : List String) :
    pyJoin sep (x :: y :: xs) = x ++ (sep ++ pyJoin sep (y :: xs)) := rfl

theorem pyJoin_css_widgets :
    ∀ ws : List Widget,
      pyJoin "\n" ("" :: ws.flatMap cssWidgetLines)
        = concatStrings (ws.map fun w => "\n" ++ cssWidgetBlockSpec w) := by
  intro ws
  induction ws with
  | nil => rfl
  | cons w rest ih =>
    simp only [List.flatMap_cons, cssWidgetLines, List.cons_append, List.nil_append,
               List.map_cons, concatStrings]
    rw [pyJoin_cons, pyJoin_cons, pyJoin_cons, pyJoin_cons, pyJoin_cons, ih]
    simp only [cssWidgetBlockSpec, ← String.append_assoc]
    simp [String.append_assoc]

/-- C8: the `css` export is exactly the layout comment line followed by
the spec's top-level grid block (selector `layout-` + the layout name
with spaces replaced by hyphens, lower-cased; declarations
`display: grid`, `grid-template-columns: repeat(columns, 1fr)`,
`row-gap: row_height px`) and then one spec placement block per widget
(selector from the first 8 characters of the widget identifier,
declarations `grid-column: x+1 / span width`,
`grid-row: y+1 / span height`). -/
theorem C8_export_layout_css (l : WidgetLayout) :
    export_layout l "css"
      = .ok ("/* Layout: " ++ l.name ++ " */" ++ "\n" ++ cssLayoutBlockSpec l
             ++ concatStrings (l.widgets.map fun w => "\n" ++ cssWidgetBlockSpec w)) := by
  unfold export_layout
  rw [if_neg (by decide), if_pos rfl]
  unfold cssLines
  simp only [List.cons_append, List.nil_append]
  rw [pyJoin_cons, pyJoin_cons, pyJoin_cons, pyJoin_cons, pyJoin_cons, pyJoin_cons,
      pyJoin_css_widgets]
  simp only [cssLayoutBlockSpec, ← String.append_assoc]
